import Mathlib

/-!
Verification of the clamsform validation pipeline and z-score scaler.

The Rust source is shallowly embedded below.  Columns are modelled as named
lists of cells; floating-point payloads are modelled by a numeric type `α`
(exact arithmetic: every finite float is a rational, and the spec states its
numeric properties up to a 1e-6 tolerance that absorbs rounding).  The polars
table collaborator (dtype inspection, `is_nan` / `is_infinite` / `is_null`
masks, `get(0)`, and the `mean` / `std(1)` reducers) is modelled per the
capability contract of spec section 6 and the documented polars semantics:
the NaN/infinity masks are defined for primitive numeric dtypes (all-false for
non-float numerics) and fail for non-numeric dtypes, which is the
collaborator-level predicate failure the spec discusses.

A Rust `Result` together with the possibility of a panic (from `.unwrap()` on
a failed predicate) is embedded as the three-valued outcome `VOutcome`.
-/

namespace Clamsform

/-- Column dtypes distinguished by the code: the two accepted float types,
a representative non-float numeric dtype, and a representative non-numeric
dtype (on which the polars NaN/infinity predicates fail). -/
inductive DType where
  | float64
  | float32
  | int32
  | utf8
  deriving DecidableEq, Repr

/-- A floating-point value: a finite value (payload in `α`), NaN, or one of
the two infinities. -/
inductive FVal (α : Type) where
  | fin (x : α)
  | nan
  | inf
  | neginf
  deriving DecidableEq, Repr

/-- One cell of a column, mirroring the polars `AnyValue` cases the code
matches on: `Float64`, `Float32`, an integer, a string, or `Null`. -/
inductive Cell (α : Type) where
  | f64 (v : FVal α)
  | f32 (v : FVal α)
  | int (n : Int)
  | str (s : String)
  | null
  deriving DecidableEq, Repr

/-- A named column with its dtype and cells. -/
structure Column (α : Type) where
  name : String
  dtype : DType
  cells : List (Cell α)
  deriving DecidableEq, Repr

/-- A DataFrame: an ordered sequence of named columns. -/
abbrev DataFrame (α : Type) := List (Column α)

/-- `df.height()`: number of rows (length of the first column; 0 if there are
no columns). -/
def heightOf (df : DataFrame α) : Nat :=
  match df with
  | [] => 0
  | col :: _ => col.cells.length

/-- `df.width()`: number of columns. -/
def widthOf (df : DataFrame α) : Nat := df.length

/-- Is this float value NaN? -/
def FVal.isNan : FVal α → Bool
  | .nan => true
  | _ => false

/-- Is this float value one of the two infinities? -/
def FVal.isInf : FVal α → Bool
  | .inf => true
  | .neginf => true
  | _ => false

/-- Modelled polars collaborator: `Series::is_nan`.  Defined for primitive
numeric dtypes — per-value NaN mask on float columns (null entries contribute
`false` under the boolean `any()` reduction), all-false on non-float numeric
columns — and an `InvalidOperation` error on non-numeric dtypes.  This is the
collaborator-level predicate failure described in spec sections 4.1 and 6. -/
def Column.is_nan (col : Column α) : Except Unit (List Bool) :=
  match col.dtype with
  | .float64 =>
      .ok (col.cells.map (fun c => match c with
        | .f64 v => v.isNan
        | .f32 v => v.isNan
        | _ => false))
  | .float32 =>
      .ok (col.cells.map (fun c => match c with
        | .f64 v => v.isNan
        | .f32 v => v.isNan
        | _ => false))
  | .int32 => .ok (col.cells.map (fun _ => false))
  | .utf8 => .error ()

/-- Modelled polars collaborator: `Series::is_infinite`, same shape as
`is_nan` (true exactly on `inf` / `neginf` entries of float columns). -/
def Column.is_infinite (col : Column α) : Except Unit (List Bool) :=
  match col.dtype with
  | .float64 =>
      .ok (col.cells.map (fun c => match c with
        | .f64 v => v.isInf
        | .f32 v => v.isInf
        | _ => false))
  | .float32 =>
      .ok (col.cells.map (fun c => match c with
        | .f64 v => v.isInf
        | .f32 v => v.isInf
        | _ => false))
  | .int32 => .ok (col.cells.map (fun _ => false))
  | .utf8 => .error ()

/-- Modelled polars collaborator: `Series::is_null`.  Total on every dtype. -/
def Column.is_null (col : Column α) : List Bool :=
  col.cells.map (fun c => match c with
    | .null => true
    | _ => false)

/-- `BooleanChunked::any()`. -/
def anyTrue (l : List Bool) : Bool := l.any id

/-- Did an `Except` computation fail? -/
def isErrB (e : Except Unit (List Bool)) : Bool :=
  match e with
  | .error _ => true
  | .ok _ => false

/-- `Vec<String>::join(", ")`. -/
def joinComma (l : List String) : String := String.intercalate ", " l

/-- The `ValidationError` enum of `validation/errors.rs` (the variants the
checks construct; the `PolarsError` passthrough variant is never constructed
by the embedded checks). -/
inductive ValidationError where
  | emptyDataFrameError (rows columns : Nat)
  | nonNumericError (cols : String)
  | nanValuesError (cols : String)
  | infiniteValuesError (cols : String)
  | missingValuesError (cols : String)
  deriving DecidableEq, Repr

/-- Outcome of a Rust function returning `Result<(), ValidationError>` that
may also panic: `ok`, an error, or a panic (from `.unwrap()` on a failed
collaborator call). -/
inductive VOutcome where
  | ok
  | err (e : ValidationError)
  | panic
  deriving DecidableEq, Repr

def VOutcome.isPanic : VOutcome → Bool
  | .panic => true
  | _ => false

namespace Validation

/-- `validate_not_empty_df` of `validation/errors.rs`. -/
def validate_not_empty_df (df : DataFrame α) : VOutcome :=
  let rows := heightOf df
  let columns := widthOf df
  if heightOf df = 0 then .err (.emptyDataFrameError rows columns) else .ok

/-- The `non_numeric_cols` list computed by `validate_numeric_columns`:
names of columns whose dtype is neither `Float64` nor `Float32`. -/
def non_numeric_cols (df : DataFrame α) : List String :=
  (df.filter (fun col => match col.dtype with
    | .float64 => false
    | .float32 => false
    | _ => true)).map (fun col => col.name)

/-- `validate_numeric_columns` of `validation/errors.rs`. -/
def validate_numeric_columns (df : DataFrame α) : VOutcome :=
  if (non_numeric_cols df).isEmpty then .ok
  else .err (.nonNumericError (joinComma (non_numeric_cols df)))

/-- The `nan_cols` list computed by `validate_nan_values`, on the assumption
that no `is_nan` call failed (the function panics otherwise). -/
def nan_cols (df : DataFrame α) : List String :=
  (df.filter (fun col => anyTrue (col.is_nan.toOption.getD []))).map
    (fun col => col.name)

/-- `validate_nan_values` of `validation/errors.rs`.  The source unwraps the
collaborator result (`col.is_nan().unwrap()`), so a failed predicate on any
column panics; the filter visits every column before the error is built, so
the function panics exactly when some column's `is_nan` fails. -/
def validate_nan_values (df : DataFrame α) : VOutcome :=
  if df.any (fun col => isErrB col.is_nan) then .panic
  else if (nan_cols df).isEmpty then .ok
  else .err (.nanValuesError (joinComma (nan_cols df)))

/-- The `inf_cols` list computed by `validate_infinite_values` (no-panic
case). -/
def inf_cols (df : DataFrame α) : List String :=
  (df.filter (fun col => anyTrue (col.is_infinite.toOption.getD []))).map
    (fun col => col.name)

/-- `validate_infinite_values` of `validation/errors.rs` (unwraps the
collaborator result, hence panics when `is_infinite` fails on a column). -/
def validate_infinite_values (df : DataFrame α) : VOutcome :=
  if df.any (fun col => isErrB col.is_infinite) then .panic
  else if (inf_cols df).isEmpty then .ok
  else .err (.infiniteValuesError (joinComma (inf_cols df)))

/-- The `missing_cols` list computed by `validate_missing_values`. -/
def missing_cols (df : DataFrame α) : List String :=
  (df.filter (fun col => anyTrue col.is_null)).map (fun col => col.name)

/-- `validate_missing_values` of `validation/errors.rs` (`is_null` is total,
so this check never panics). -/
def validate_missing_values (df : DataFrame α) : VOutcome :=
  if (missing_cols df).isEmpty then .ok
  else .err (.missingValuesError (joinComma (missing_cols df)))

/-- `validate_dataframe` of `validation/errors.rs`: the five checks run in
their fixed order with `?`-style short-circuiting. -/
def validate_dataframe (df : DataFrame α) : VOutcome :=
  match validate_not_empty_df df with
  | .ok =>
    match validate_numeric_columns df with
    | .ok =>
      match validate_nan_values df with
      | .ok =>
        match validate_infinite_values df with
        | .ok => validate_missing_values df
        | r => r
      | r => r
    | r => r
  | r => r

/-- `results.into_iter().collect::<Result<(), _>>()`: the first error of an
ordered list of panic-free results (the panic equation is unreachable under
the panic guard of `validate_dataframe_parallel` and is kept only for
totality). -/
def collectFirstErr : List VOutcome → VOutcome
  | [] => .ok
  | .ok :: t => collectFirstErr t
  | .err e :: _ => .err e
  | .panic :: _ => .panic

/-- `validate_dataframe_parallel` of `validation/errors.rs`: all five checks
run over the full table; `rayon`'s ordered `collect` re-raises a panic of any
task at the join, otherwise the results are collected in the fixed order and
the first error wins. -/
def validate_dataframe_parallel (df : DataFrame α) : VOutcome :=
  let results : List VOutcome :=
    [validate_not_empty_df df, validate_numeric_columns df,
     validate_nan_values df, validate_infinite_values df,
     validate_missing_values df]
  if results.any VOutcome.isPanic then .panic
  else collectFirstErr results

end Validation

namespace FS

/-! The validators of `feature_scaling/utils/validation_errors.rs`.  They
differ from `validation/errors.rs` in one way: a failed NaN/infinity
predicate is replaced by a one-element all-false mask
(`unwrap_or_else(|_| ChunkedArray::from_slice("", &[false]))`) instead of
being unwrapped, so these checks never panic and a predicate-failing column
is treated as having no violation. -/

/-- The `nan_cols` list of `validate_nan_values`
(`feature_scaling/utils/validation_errors.rs`): a failed predicate yields the
substitute `[false]` mask. -/
def nan_cols (df : DataFrame α) : List String :=
  (df.filter (fun col => anyTrue (col.is_nan.toOption.getD [false]))).map
    (fun col => col.name)

/-- `validate_nan_values` of `feature_scaling/utils/validation_errors.rs`. -/
def validate_nan_values (df : DataFrame α) : VOutcome :=
  if (nan_cols df).isEmpty then .ok
  else .err (.nanValuesError (joinComma (nan_cols df)))

/-- The `inf_cols` list of `validate_infinite_values`
(`feature_scaling/utils/validation_errors.rs`). -/
def inf_cols (df : DataFrame α) : List String :=
  (df.filter (fun col => anyTrue (col.is_infinite.toOption.getD [false]))).map
    (fun col => col.name)

/-- `validate_infinite_values` of
`feature_scaling/utils/validation_errors.rs`. -/
def validate_infinite_values (df : DataFrame α) : VOutcome :=
  if (inf_cols df).isEmpty then .ok
  else .err (.infiniteValuesError (joinComma (inf_cols df)))

end FS

/-- `col.get(0).ok()`: the first cell as an `AnyValue` when the column is
non-empty (`get` errs out of bounds, so `.ok()` yields `None` there). -/
def Column.get0 (col : Column α) : Option (Cell α) := col.cells.head?

/-- The `NEAR_ZERO_THRESHOLD` constant `1e-8`. -/
def NEAR_ZERO_THRESHOLD (α : Type) [LinearOrderedField α] : α := 1 / 10 ^ 8

/-- The `ScalingError` enum of `scaling/standardization/errors.rs` (the
`PolarsError` passthrough variant is never constructed by the embedded
code). -/
inductive ScalingError where
  | zeroStandardDeviationError (cols : String)
  | nearZeroStandardDeviationError (cols : String)
  | uninitializedScaler (msg : String)
  | validationError (e : ValidationError)
  deriving DecidableEq, Repr

namespace Scaling

/-- The `zero_std_cols` list of `validate_non_zero_std`
(`scaling/standardization/errors.rs`): names of columns whose first value
matches `AnyValue::Float64(0.0)` or `AnyValue::Float32(0.0)`. -/
def zero_std_cols [LinearOrderedField α] (df : DataFrame α) : List String :=
  df.filterMap (fun col => match col.get0 with
    | some (.f64 (.fin v)) => if v = 0 then some col.name else none
    | some (.f32 (.fin v)) => if v = 0 then some col.name else none
    | _ => none)

/-- `validate_non_zero_std` of `scaling/standardization/errors.rs`. -/
def validate_non_zero_std [LinearOrderedField α] (df : DataFrame α) :
    Except ScalingError Unit :=
  if (zero_std_cols df).isEmpty then .ok ()
  else .error (.zeroStandardDeviationError (joinComma (zero_std_cols df)))

/-- The offender list of `validate_near_zero_std`: names of columns whose
first value is a float matching the guard `val.abs() < NEAR_ZERO_THRESHOLD`
(NaN and the infinities fail that IEEE comparison, so only finite payloads
can match). -/
def near_zero_std_cols [LinearOrderedField α] (df : DataFrame α) :
    List String :=
  df.filterMap (fun col => match col.get0 with
    | some (.f64 (.fin v)) =>
        if |v| < NEAR_ZERO_THRESHOLD α then some col.name else none
    | some (.f32 (.fin v)) =>
        if |v| < NEAR_ZERO_THRESHOLD α then some col.name else none
    | _ => none)

/-- `validate_near_zero_std` of `scaling/standardization/errors.rs`.  Note:
the source constructs `ScalingError::ZeroStandardDeviationError` in this
branch (not the `NearZeroStandardDeviationError` variant declared in the same
file), and the embedding preserves that. -/
def validate_near_zero_std [LinearOrderedField α] (df : DataFrame α) :
    Except ScalingError Unit :=
  if (near_zero_std_cols df).isEmpty then .ok ()
  else .error (.zeroStandardDeviationError (joinComma (near_zero_std_cols df)))

/-- `validate_stds` of `scaling/standardization/errors.rs`: the exact-zero
check first, then the near-zero check. -/
def validate_stds [LinearOrderedField α] (df : DataFrame α) :
    Except ScalingError Unit :=
  match validate_non_zero_std df with
  | .error e => .error e
  | .ok _ => validate_near_zero_std df

end Scaling

/-- The `ScalingError` enum of `scaling/standardization/error.rs`, whose
denominator variants carry the metric name and the column list (`PolarsError`
passthrough again omitted as never constructed here). -/
inductive DenomScalingError where
  | zeroDenominatorError (metric cols : String)
  | nearZeroDenominatorError (metric cols : String)
  | validationError (e : ValidationError)
  deriving DecidableEq, Repr

namespace Denom

/-- The `zero_cols` list of `validate_non_zero_denom`
(`scaling/standardization/error.rs`). -/
def zero_cols [LinearOrderedField α] (df : DataFrame α) : List String :=
  df.filterMap (fun col => match col.get0 with
    | some (.f64 (.fin v)) => if v = 0 then some col.name else none
    | some (.f32 (.fin v)) => if v = 0 then some col.name else none
    | _ => none)

/-- `validate_non_zero_denom` of `scaling/standardization/error.rs`
(via the `scaling_err!(zero_denom = ...)` macro). -/
def validate_non_zero_denom [LinearOrderedField α] (df : DataFrame α)
    (metric : String) : Except DenomScalingError Unit :=
  if (zero_cols df).isEmpty then .ok ()
  else .error (.zeroDenominatorError metric (joinComma (zero_cols df)))

/-- The `near_zero_cols` list of `validate_near_zero_denom` (same guard as
`Scaling.near_zero_std_cols`). -/
def near_zero_cols [LinearOrderedField α] (df : DataFrame α) : List String :=
  df.filterMap (fun col => match col.get0 with
    | some (.f64 (.fin v)) =>
        if |v| < NEAR_ZERO_THRESHOLD α then some col.name else none
    | some (.f32 (.fin v)) =>
        if |v| < NEAR_ZERO_THRESHOLD α then some col.name else none
    | _ => none)

/-- `validate_near_zero_denom` of `scaling/standardization/error.rs`
(via `scaling_err!(near_zero_denom = ...)`; this file does construct the
`NearZeroDenominatorError` variant). -/
def validate_near_zero_denom [LinearOrderedField α] (df : DataFrame α)
    (metric : String) : Except DenomScalingError Unit :=
  if (near_zero_cols df).isEmpty then .ok ()
  else .error (.nearZeroDenominatorError metric (joinComma (near_zero_cols df)))

/-- `validate_denoms` of `scaling/standardization/error.rs`. -/
def validate_denoms [LinearOrderedField α] (df : DataFrame α)
    (metric : String) : Except DenomScalingError Unit :=
  match validate_non_zero_denom df metric with
  | .error e => .error e
  | .ok _ => validate_near_zero_denom df metric

end Denom

/-! ## The z-score scaler of `scaling/standardization/z_score.rs`

The scaler's numeric work is delegated to the polars reducers `mean` and
`std(1)`, modelled here over `ℝ` with exact arithmetic (spec section 6:
per-column arithmetic mean and sample standard deviation with ddof = 1; the
reducers are total on validated frames, and the spec's numeric statements are
up to a 1e-6 tolerance that absorbs float rounding).  `std(1)` of a column
with fewer than two values is `null` in polars, and `mean` of an empty column
is `null`; both are modelled. -/

/-- The finite float payloads of a column's cells (on a validated frame this
is exactly the column's data). -/
def colFloatVals (col : Column ℝ) : List ℝ :=
  col.cells.filterMap (fun c => match c with
    | .f64 (.fin x) => some x
    | .f32 (.fin x) => some x
    | _ => none)

/-- Arithmetic mean of a list of values. -/
noncomputable def listMean (xs : List ℝ) : ℝ := xs.sum / xs.length

/-- Sample variance with Bessel's correction (ddof = 1). -/
noncomputable def sampleVar (xs : List ℝ) : ℝ :=
  ((xs.map (fun x => (x - listMean xs) ^ 2)).sum) / ((xs.length : ℝ) - 1)

/-- Sample standard deviation (ddof = 1). -/
noncomputable def sampleStd (xs : List ℝ) : ℝ := Real.sqrt (sampleVar xs)

/-- Wrap a computed statistic in a cell of the column's float dtype (polars
reducers keep `Float32` columns `Float32`). -/
def wrapFloat (dt : DType) (x : ℝ) : Cell ℝ :=
  match dt with
  | .float32 => .f32 (.fin x)
  | _ => .f64 (.fin x)

/-- The cell produced by `all().mean()` for one column: `null` when the
column has no values, otherwise the arithmetic mean. -/
noncomputable def meanCell (col : Column ℝ) : Cell ℝ :=
  if (colFloatVals col).length = 0 then .null
  else wrapFloat col.dtype (listMean (colFloatVals col))

/-- The cell produced by `all().std(1)` for one column: `null` when the
column has fewer than two values (ddof = 1), otherwise the sample standard
deviation. -/
noncomputable def stdCell (col : Column ℝ) : Cell ℝ :=
  if (colFloatVals col).length ≤ 1 then .null
  else wrapFloat col.dtype (sampleStd (colFloatVals col))

/-- `df.clone().lazy().select([all().mean()]).collect()`: the one-row mean
table. -/
noncomputable def meanRowOf (df : DataFrame ℝ) : DataFrame ℝ :=
  df.map (fun col => ⟨col.name, col.dtype, [meanCell col]⟩)

/-- `df.clone().lazy().select([all().std(1)]).collect()`: the one-row std
table. -/
noncomputable def stdRowOf (df : DataFrame ℝ) : DataFrame ℝ :=
  df.map (fun col => ⟨col.name, col.dtype, [stdCell col]⟩)

/-- One column of `select([(all() - all().mean()) / all().std(1)])`: each
finite float value is replaced by `(x - mean) / std`. -/
noncomputable def standardizeCol (col : Column ℝ) : Column ℝ :=
  ⟨col.name, col.dtype, col.cells.map (fun c => match c with
    | .f64 (.fin x) =>
        .f64 (.fin ((x - listMean (colFloatVals col)) /
          sampleStd (colFloatVals col)))
    | .f32 (.fin x) =>
        .f32 (.fin ((x - listMean (colFloatVals col)) /
          sampleStd (colFloatVals col)))
    | other => other)⟩

/-- The standardized table returned by a successful `standardize`. -/
noncomputable def standardizedDf (df : DataFrame ℝ) : DataFrame ℝ :=
  df.map standardizeCol

/-- The `ZScoreScaler` struct: optional one-row mean and std tables. -/
structure ZScoreScaler where
  mean : Option (DataFrame ℝ)
  std : Option (DataFrame ℝ)

/-- `ZScoreScaler::new()` (also `default()`). -/
def ZScoreScaler.new : ZScoreScaler := { mean := none, std := none }

/-- Result of a scaler call returning `Result<DataFrame, ScalingError>`,
together with the panic outcome a validation `unwrap` could raise. -/
inductive SRes where
  | ok (out : DataFrame ℝ)
  | err (e : ScalingError)
  | panic

/-- `ZScoreScaler::standardize` (`&mut self` is modelled by returning the
updated scaler next to the result): validate the input, store the freshly
computed mean and std rows, validate the std row, and only then produce the
standardized table. -/
noncomputable def ZScoreScaler.standardize (s : ZScoreScaler)
    (df : DataFrame ℝ) : ZScoreScaler × SRes :=
  match Validation.validate_dataframe df with
  | .panic => (s, .panic)
  | .err e => (s, .err (.validationError e))
  | .ok =>
    let s2 : ZScoreScaler := { mean := some (meanRowOf df),
                               std := some (stdRowOf df) }
    match Scaling.validate_stds (stdRowOf df) with
    | .error e => (s2, .err e)
    | .ok _ => (s2, .ok (standardizedDf df))

/-- `ZScoreScaler::reset()`: clear both statistics. -/
def ZScoreScaler.reset (_ : ZScoreScaler) : ZScoreScaler :=
  { mean := none, std := none }

/-- The value of a one-row statistics table at column index `i` (used only by
the spec-modelled `transform` below). -/
noncomputable def rowVal (row : DataFrame ℝ) (i : Nat) : ℝ :=
  match row.get? i with
  | some col => (colFloatVals col).headD 0
  | none => 0

/-- Modelled from the spec: application of stored statistics to a table
(spec section 4.2, `transform` applies the stored statistics, not recomputed
ones); the implementation of `transform` is declared in `scaling/traits.rs`
but absent from the provided sources. -/
noncomputable def applyStats (m sd : DataFrame ℝ) (df : DataFrame ℝ) : DataFrame ℝ :=
  df.mapIdx (fun i col => ⟨col.name, col.dtype, col.cells.map (fun c =>
    match c with
    | .f64 (.fin x) => .f64 (.fin ((x - rowVal m i) / rowVal sd i))
    | .f32 (.fin x) => .f32 (.fin ((x - rowVal m i) / rowVal sd i))
    | other => other)⟩)

/-- Modelled from the spec: `ZScoreScaler::transform`, declared in
`scaling/traits.rs` (`fn transform(&self, df) -> Result<DataFrame,
ScalingError>`) but with no implementation under the provided sources.
Spec section 4.2: it fails with `UninitializedScaler` while `mean`/`std` are
`None`; otherwise it re-validates the table and applies the stored
statistics. -/
noncomputable def ZScoreScaler.transform (s : ZScoreScaler)
    (df : DataFrame ℝ) : SRes :=
  match s.mean, s.std with
  | some m, some sd =>
    (match Validation.validate_dataframe df with
     | .panic => .panic
     | .err e => .err (.validationError e)
     | .ok => .ok (applyStats m sd df))
  | _, _ => .err (.uninitializedScaler
      "scaler has not been fitted; call standardize first")

/-! ## Helper lemmas -/

/-- The NaN predicate fails exactly on the non-numeric dtype. -/
lemma isErrB_is_nan_iff (col : Column α) :
    isErrB col.is_nan = true ↔ col.dtype = .utf8 := by
  cases h : col.dtype <;> simp [Column.is_nan, isErrB, h]

/-- The infinity predicate fails exactly on the non-numeric dtype. -/
lemma isErrB_is_infinite_iff (col : Column α) :
    isErrB col.is_infinite = true ↔ col.dtype = .utf8 := by
  cases h : col.dtype <;> simp [Column.is_infinite, isErrB, h]

lemma validate_not_empty_df_ne_panic (df : DataFrame α) :
    Validation.validate_not_empty_df df ≠ .panic := by
  unfold Validation.validate_not_empty_df
  split <;> simp

lemma validate_numeric_columns_ne_panic (df : DataFrame α) :
    Validation.validate_numeric_columns df ≠ .panic := by
  unfold Validation.validate_numeric_columns
  split <;> simp

lemma validate_missing_values_ne_panic (df : DataFrame α) :
    Validation.validate_missing_values df ≠ .panic := by
  unfold Validation.validate_missing_values
  split <;> simp

lemma validate_nan_values_ne_panic (df : DataFrame α)
    (h : ∀ col ∈ df, col.dtype ≠ .utf8) :
    Validation.validate_nan_values df ≠ .panic := by
  have hany : df.any (fun col => isErrB col.is_nan) = false := by
    rw [List.any_eq_false]
    intro col hcol
    simp only [isErrB_is_nan_iff]
    exact h col hcol
  unfold Validation.validate_nan_values
  rw [hany]
  simp only [Bool.false_eq_true, if_false]
  split <;> simp

lemma validate_infinite_values_ne_panic (df : DataFrame α)
    (h : ∀ col ∈ df, col.dtype ≠ .utf8) :
    Validation.validate_infinite_values df ≠ .panic := by
  have hany : df.any (fun col => isErrB col.is_infinite) = false := by
    rw [List.any_eq_false]
    intro col hcol
    simp only [isErrB_is_infinite_iff]
    exact h col hcol
  unfold Validation.validate_infinite_values
  rw [hany]
  simp only [Bool.false_eq_true, if_false]
  split <;> simp

lemma isPanic_false_of_ne {r : VOutcome} (h : r ≠ .panic) :
    r.isPanic = false := by
  cases r <;> simp_all [VOutcome.isPanic]

end Clamsform

open Clamsform

/-! ## Claim C4 -/

/-- Claim C4: for every DataFrame with zero rows, `validate_dataframe`
returns `EmptyDataFrameError` carrying the shape, regardless of the
columns' dtypes or contents — no later check's error is ever reported. -/
theorem C4_empty_dataframe_priority {α : Type} (df : DataFrame α)
    (h : heightOf df = 0) :
    Validation.validate_dataframe df =
      .err (.emptyDataFrameError (heightOf df) (widthOf df)) := by
  unfold Validation.validate_dataframe Validation.validate_not_empty_df
  simp [h]

/-- A concrete zero-row table that is also non-numeric: an empty integer
column next to an empty string column. -/
def dfC4 : DataFrame ℝ := [⟨"i", .int32, []⟩, ⟨"s", .utf8, []⟩]

/-- Witness for C4 at a zero-row table that is also non-numeric: the verdict
is the empty-table error, not the non-numeric one. -/
theorem C4_empty_dataframe_priority_witness :
    heightOf dfC4 = 0 ∧
    Validation.validate_dataframe dfC4 =
      .err (.emptyDataFrameError 0 2) :=
  ⟨rfl, C4_empty_dataframe_priority dfC4 rfl⟩

/-! ## Claim C2 -/

/-- The one-row std table of the spec scenario: a single column whose value
`5e-9` is strictly between 0 and the `1e-8` threshold. -/
noncomputable def dfC2 : DataFrame ℝ := [⟨"std2", .float64, [.f64 (.fin 5e-9)]⟩]

/-- Claim C2 (code bug): on a one-row std table whose column holds `5e-9`,
`validate_stds` of `scaling/standardization/errors.rs` returns the
`ZeroStandardDeviationError` variant ("is zero, division by zero") even
though the value is near zero and not zero — its near-zero branch constructs
the wrong variant, and the `NearZeroStandardDeviationError` variant declared
in that file is never constructed.  The sibling `validate_denoms` of
`scaling/standardization/error.rs` returns the `NearZeroDenominatorError`
variant, as the claim demands. -/
theorem C2_near_zero_variant_bug :
    Scaling.validate_stds dfC2 =
      .error (.zeroStandardDeviationError "std2") ∧
    Denom.validate_denoms dfC2 "standard deviation" =
      .error (.nearZeroDenominatorError "standard deviation" "std2") := by
  have h1 : Scaling.near_zero_std_cols dfC2 = ["std2"] := by
    norm_num [Scaling.near_zero_std_cols, Column.get0, NEAR_ZERO_THRESHOLD,
      dfC2, List.filterMap_cons, List.head?, abs_lt]
  have h2 : Scaling.zero_std_cols dfC2 = [] := by
    norm_num [Scaling.zero_std_cols, Column.get0, dfC2, List.filterMap_cons,
      List.head?]
  have h3 : Denom.near_zero_cols dfC2 = ["std2"] := by
    norm_num [Denom.near_zero_cols, Column.get0, NEAR_ZERO_THRESHOLD,
      dfC2, List.filterMap_cons, List.head?, abs_lt]
  have h4 : Denom.zero_cols dfC2 = [] := by
    norm_num [Denom.zero_cols, Column.get0, dfC2, List.filterMap_cons,
      List.head?]
  constructor
  · simp [Scaling.validate_stds, Scaling.validate_non_zero_std,
      Scaling.validate_near_zero_std, h1, h2, joinComma]
    rfl
  · simp [Denom.validate_denoms, Denom.validate_non_zero_denom,
      Denom.validate_near_zero_denom, h3, h4, joinComma]
    rfl

/-! ## Claim C1 -/

/-- A one-row table with a single string column: the sequential validator
rejects it as non-numeric, but the parallel validator panics, because the
NaN/infinity checks run unconditionally there and unwrap a failed
predicate. -/
def dfC1 : DataFrame ℝ := [⟨"s", .utf8, [.str "a"]⟩]

/-- Counterexample to claim C1 as stated: on a table with a string column,
sequential validation returns the non-numeric error while parallel
validation panics, so the two are not observably equivalent for every
DataFrame. -/
theorem C1_counterexample :
    Validation.validate_dataframe dfC1 = .err (.nonNumericError "s") ∧
    Validation.validate_dataframe_parallel dfC1 = .panic ∧
    Validation.validate_dataframe dfC1 ≠
      Validation.validate_dataframe_parallel dfC1 := by
  refine ⟨rfl, rfl, ?_⟩
  decide

/-- Claim C1 (amended): sequential and parallel validation agree on every
DataFrame none of whose columns has the non-numeric dtype on which the
NaN/infinity predicates fail (in particular on every all-float table). -/
theorem C1_seq_parallel_equiv {α : Type} (df : DataFrame α)
    (h : ∀ col ∈ df, col.dtype ≠ DType.utf8) :
    Validation.validate_dataframe df =
      Validation.validate_dataframe_parallel df := by
  have h3 := isPanic_false_of_ne (validate_nan_values_ne_panic df h)
  have h4 := isPanic_false_of_ne (validate_infinite_values_ne_panic df h)
  have h1 := isPanic_false_of_ne (validate_not_empty_df_ne_panic df)
  have h2 := isPanic_false_of_ne (validate_numeric_columns_ne_panic df)
  have h5 := isPanic_false_of_ne (validate_missing_values_ne_panic df)
  unfold Validation.validate_dataframe Validation.validate_dataframe_parallel
  cases e1 : Validation.validate_not_empty_df df with
  | panic => rw [e1] at h1; simp [VOutcome.isPanic] at h1
  | err e =>
    simp_all [Validation.collectFirstErr]
  | ok =>
    cases e2 : Validation.validate_numeric_columns df with
    | panic => rw [e2] at h2; simp [VOutcome.isPanic] at h2
    | err e =>
      simp_all [Validation.collectFirstErr]
    | ok =>
      cases e3 : Validation.validate_nan_values df with
      | panic => rw [e3] at h3; simp [VOutcome.isPanic] at h3
      | err e =>
        simp_all [Validation.collectFirstErr]
      | ok =>
        cases e4 : Validation.validate_infinite_values df with
        | panic => rw [e4] at h4; simp [VOutcome.isPanic] at h4
        | err e =>
          simp_all [Validation.collectFirstErr]
        | ok =>
          cases e5 : Validation.validate_missing_values df with
          | panic => rw [e5] at h5; simp [VOutcome.isPanic] at h5
          | err e =>
            simp_all [Validation.collectFirstErr]
          | ok =>
            simp_all [Validation.collectFirstErr]

/-- A concrete all-numeric table (one float column with an infinity, one
integer column) on which both validators agree. -/
def dfC1w : DataFrame ℝ :=
  [⟨"f", .float64, [.f64 .inf, .f64 (.fin 1)]⟩, ⟨"i", .int32, [.int 3, .int 4]⟩]

/-- Witness for the amended C1 at a concrete numeric-dtype table. -/
theorem C1_seq_parallel_equiv_witness :
    (∀ col ∈ dfC1w, col.dtype ≠ DType.utf8) ∧
    Validation.validate_dataframe dfC1w =
      Validation.validate_dataframe_parallel dfC1w :=
  ⟨by decide, C1_seq_parallel_equiv dfC1w (by decide)⟩


/-! ## Claim C7 -/

/-- A column of the non-numeric dtype, on which the NaN/infinity predicates
fail at the collaborator level. -/
def colC7 : Column ℝ := ⟨"b", .utf8, [.str "x"]⟩

/-- Counterexample to claim C7 as stated: in `validation/errors.rs` the
NaN and infinity checks unwrap the predicate result, so on a table holding a
column with an unsupported dtype they crash instead of degrading to "no
violation". -/
theorem C7_counterexample :
    Validation.validate_nan_values [colC7] = .panic ∧
    Validation.validate_infinite_values [colC7] = .panic :=
  ⟨rfl, rfl⟩

/-- Claim C7 (amended): the fail-open policy holds for the
`feature_scaling/utils/validation_errors.rs` checks — they never panic, and
a column whose predicate evaluation fails contributes no violation (dropping
it from the scanned table leaves the offender list unchanged). -/
theorem C7_predicate_failopen {α : Type} :
    (∀ df : DataFrame α, FS.validate_nan_values df ≠ .panic ∧
      FS.validate_infinite_values df ≠ .panic) ∧
    (∀ (col : Column α) (df : DataFrame α), isErrB col.is_nan = true →
      FS.nan_cols (col :: df) = FS.nan_cols df) ∧
    (∀ (col : Column α) (df : DataFrame α), isErrB col.is_infinite = true →
      FS.inf_cols (col :: df) = FS.inf_cols df) := by
  refine ⟨fun df => ⟨?_, ?_⟩, fun col df h => ?_, fun col df h => ?_⟩
  · unfold FS.validate_nan_values
    split <;> simp
  · unfold FS.validate_infinite_values
    split <;> simp
  · have he : col.is_nan = .error () := by
      cases hx : col.is_nan with
      | error u => cases u; rfl
      | ok l => rw [hx] at h; simp [isErrB] at h
    simp [FS.nan_cols, List.filter_cons, he, Except.toOption, anyTrue]
  · have he : col.is_infinite = .error () := by
      cases hx : col.is_infinite with
      | error u => cases u; rfl
      | ok l => rw [hx] at h; simp [isErrB] at h
    simp [FS.inf_cols, List.filter_cons, he, Except.toOption, anyTrue]

/-- Witness for the amended C7 at the concrete predicate-failing column. -/
theorem C7_predicate_failopen_witness :
    isErrB colC7.is_nan = true ∧ isErrB colC7.is_infinite = true ∧
    FS.validate_nan_values [colC7] ≠ .panic ∧
    FS.nan_cols [colC7] = FS.nan_cols ([] : DataFrame ℝ) ∧
    FS.inf_cols [colC7] = FS.inf_cols ([] : DataFrame ℝ) :=
  ⟨rfl, rfl, ((C7_predicate_failopen (α := ℝ)).1 [colC7]).1,
    (C7_predicate_failopen (α := ℝ)).2.1 colC7 [] rfl,
    (C7_predicate_failopen (α := ℝ)).2.2 colC7 [] rfl⟩

/-! ## Claim C10 -/

/-- The table truncated to its first row. -/
def firstRowOnly (df : DataFrame α) : DataFrame α :=
  df.map (fun col => ⟨col.name, col.dtype, col.cells.take 1⟩)

/-- Is this `get(0)` result a `Float64`/`Float32` scalar? -/
def isFloatScalarCell : Option (Cell α) → Bool
  | some (.f64 _) => true
  | some (.f32 _) => true
  | _ => false

lemma get0_firstRow (col : Column α) :
    (Column.mk col.name col.dtype (col.cells.take 1)).get0 = col.get0 := by
  cases h : col.cells <;> simp [Column.get0, h]

lemma filterMap_firstRowOnly (F : Column α → Option String)
    (hF : ∀ col : Column α,
      F ⟨col.name, col.dtype, col.cells.take 1⟩ = F col)
    (df : DataFrame α) :
    (firstRowOnly df).filterMap F = df.filterMap F := by
  unfold firstRowOnly
  rw [List.filterMap_map]
  exact List.filterMap_congr (fun col _ => hF col)

lemma zero_std_cols_firstRow [LinearOrderedField α] (df : DataFrame α) :
    Scaling.zero_std_cols (firstRowOnly df) = Scaling.zero_std_cols df := by
  unfold Scaling.zero_std_cols
  exact filterMap_firstRowOnly _
    (fun col => by cases h : col.cells <;> simp [Column.get0, h]) df

lemma near_zero_std_cols_firstRow [LinearOrderedField α] (df : DataFrame α) :
    Scaling.near_zero_std_cols (firstRowOnly df) =
      Scaling.near_zero_std_cols df := by
  unfold Scaling.near_zero_std_cols
  exact filterMap_firstRowOnly _
    (fun col => by cases h : col.cells <;> simp [Column.get0, h]) df

lemma denom_zero_cols_firstRow [LinearOrderedField α] (df : DataFrame α) :
    Denom.zero_cols (firstRowOnly df) = Denom.zero_cols df := by
  unfold Denom.zero_cols
  exact filterMap_firstRowOnly _
    (fun col => by cases h : col.cells <;> simp [Column.get0, h]) df

lemma denom_near_zero_cols_firstRow [LinearOrderedField α] (df : DataFrame α) :
    Denom.near_zero_cols (firstRowOnly df) = Denom.near_zero_cols df := by
  unfold Denom.near_zero_cols
  exact filterMap_firstRowOnly _
    (fun col => by cases h : col.cells <;> simp [Column.get0, h]) df

/-- Claim C10: the denominator-safety validators inspect only row 0 of each
column — truncating every column to its first row leaves all verdicts
unchanged (so zero or near-zero values in later rows never trigger an
error), and a column whose first value is not a `Float64`/`Float32` scalar
passes both the zero and the near-zero check in both implementations. -/
theorem C10_validators_first_row_only {α : Type} [LinearOrderedField α] :
    (∀ df : DataFrame α,
      Scaling.validate_stds (firstRowOnly df) = Scaling.validate_stds df ∧
      ∀ metric, Denom.validate_denoms (firstRowOnly df) metric =
        Denom.validate_denoms df metric) ∧
    (∀ col : Column α, isFloatScalarCell col.get0 = false →
      Scaling.validate_non_zero_std [col] = .ok () ∧
      Scaling.validate_near_zero_std [col] = .ok () ∧
      ∀ metric, Denom.validate_non_zero_denom [col] metric = .ok () ∧
        Denom.validate_near_zero_denom [col] metric = .ok ()) := by
  constructor
  · intro df
    constructor
    · simp only [Scaling.validate_stds, Scaling.validate_non_zero_std,
        Scaling.validate_near_zero_std, zero_std_cols_firstRow,
        near_zero_std_cols_firstRow]
    · intro metric
      simp only [Denom.validate_denoms, Denom.validate_non_zero_denom,
        Denom.validate_near_zero_denom, denom_zero_cols_firstRow,
        denom_near_zero_cols_firstRow]
  · intro col h
    have h1 : Scaling.zero_std_cols [col] = [] := by
      unfold Scaling.zero_std_cols
      cases o : col.get0 with
      | none => simp [o]
      | some c =>
        cases c with
        | f64 v => rw [o] at h; simp [isFloatScalarCell] at h
        | f32 v => rw [o] at h; simp [isFloatScalarCell] at h
        | int n => simp [o]
        | str s => simp [o]
        | null => simp [o]
    have h2 : Scaling.near_zero_std_cols [col] = [] := by
      unfold Scaling.near_zero_std_cols
      cases o : col.get0 with
      | none => simp [o]
      | some c =>
        cases c with
        | f64 v => rw [o] at h; simp [isFloatScalarCell] at h
        | f32 v => rw [o] at h; simp [isFloatScalarCell] at h
        | int n => simp [o]
        | str s => simp [o]
        | null => simp [o]
    have h3 : Denom.zero_cols [col] = [] := by
      unfold Denom.zero_cols
      cases o : col.get0 with
      | none => simp [o]
      | some c =>
        cases c with
        | f64 v => rw [o] at h; simp [isFloatScalarCell] at h
        | f32 v => rw [o] at h; simp [isFloatScalarCell] at h
        | int n => simp [o]
        | str s => simp [o]
        | null => simp [o]
    have h4 : Denom.near_zero_cols [col] = [] := by
      unfold Denom.near_zero_cols
      cases o : col.get0 with
      | none => simp [o]
      | some c =>
        cases c with
        | f64 v => rw [o] at h; simp [isFloatScalarCell] at h
        | f32 v => rw [o] at h; simp [isFloatScalarCell] at h
        | int n => simp [o]
        | str s => simp [o]
        | null => simp [o]
    refine ⟨?_, ?_, fun metric => ⟨?_, ?_⟩⟩
    · simp [Scaling.validate_non_zero_std, h1]
    · simp [Scaling.validate_near_zero_std, h2]
    · simp [Denom.validate_non_zero_denom, h3]
    · simp [Denom.validate_near_zero_denom, h4]

/-- A table with a zero in the second row of its only column: only row 0 is
inspected, so it does not trigger the zero check. -/
noncomputable def dfC10 : DataFrame ℝ :=
  [⟨"a", .float64, [.f64 (.fin 1), .f64 (.fin 0)]⟩]

/-- A column whose first value is null (not a float scalar) although a zero
appears in its second row. -/
noncomputable def colC10 : Column ℝ :=
  ⟨"n", .float64, [.null, .f64 (.fin 0)]⟩

/-- Witness for C10 at a table with a zero in the second row, and at a
column whose first value is null. -/
theorem C10_validators_first_row_only_witness :
    (Scaling.validate_stds (firstRowOnly dfC10) =
      Scaling.validate_stds dfC10) ∧
    isFloatScalarCell colC10.get0 = false ∧
    Scaling.validate_non_zero_std [colC10] = .ok () ∧
    Scaling.validate_near_zero_std [colC10] = .ok () ∧
    Denom.validate_non_zero_denom [colC10] "standard deviation" = .ok () ∧
    Denom.validate_near_zero_denom [colC10] "standard deviation" = .ok () :=
  ⟨((C10_validators_first_row_only (α := ℝ)).1 dfC10).1, rfl,
    ((C10_validators_first_row_only (α := ℝ)).2 colC10 rfl).1,
    ((C10_validators_first_row_only (α := ℝ)).2 colC10 rfl).2.1,
    (((C10_validators_first_row_only (α := ℝ)).2 colC10 rfl).2.2
      "standard deviation").1,
    (((C10_validators_first_row_only (α := ℝ)).2 colC10 rfl).2.2
      "standard deviation").2⟩


/-! ## Claim C8 -/

/-- An operation on a live scaler: a `standardize` call (with its input) or a
`reset`. -/
inductive ScalerOp where
  | fit (df : DataFrame ℝ)
  | reset

/-- Run one operation, keeping the updated scaler state. -/
noncomputable def applyOp (s : ZScoreScaler) : ScalerOp → ZScoreScaler
  | .fit df => (s.standardize df).fst
  | .reset => s.reset

/-- The spec invariant on the scaler state: `mean` and `std` are `None`
together or `Some` together. -/
def statsInSync (s : ZScoreScaler) : Prop := s.mean.isSome = s.std.isSome

lemma statsInSync_applyOp (s : ZScoreScaler) (op : ScalerOp)
    (h : statsInSync s) : statsInSync (applyOp s op) := by
  cases op with
  | reset => simp [applyOp, ZScoreScaler.reset, statsInSync]
  | fit df =>
    cases hv : Validation.validate_dataframe df with
    | panic => simpa [applyOp, ZScoreScaler.standardize, hv] using h
    | err e => simpa [applyOp, ZScoreScaler.standardize, hv] using h
    | ok =>
      cases hs : Scaling.validate_stds (stdRowOf df) with
      | error e =>
        simp [applyOp, ZScoreScaler.standardize, hv, hs, statsInSync]
      | ok u =>
        simp [applyOp, ZScoreScaler.standardize, hv, hs, statsInSync]

/-- Claim C8: after any sequence of operations starting from a freshly
constructed scaler — `standardize` calls (whether they return Ok or Err) and
`reset`s — the stored `mean` and `std` are `None` together or `Some`
together. -/
theorem C8_mean_std_in_sync (ops : List ScalerOp) :
    statsInSync (ops.foldl applyOp ZScoreScaler.new) := by
  have general : ∀ (l : List ScalerOp) (s : ZScoreScaler),
      statsInSync s → statsInSync (l.foldl applyOp s) := by
    intro l
    induction l with
    | nil => intro s h; exact h
    | cons op t ih => intro s h; exact ih _ (statsInSync_applyOp s op h)
  exact general ops ZScoreScaler.new rfl

/-! ## Claim C9 -/

/-- Claim C9: `standardize` is not atomic on the scaler state.  When the
input fails dataframe validation the state is returned unchanged, but when
the denominator-safety check on the computed std row fails, the stored mean
and std have already been overwritten with the statistics of the failing
input. -/
theorem C9_standardize_not_atomic :
    (∀ (s : ZScoreScaler) (df : DataFrame ℝ) (e : ValidationError),
      Validation.validate_dataframe df = .err e →
      s.standardize df = (s, .err (.validationError e))) ∧
    (∀ (s : ZScoreScaler) (df : DataFrame ℝ) (e : ScalingError),
      Validation.validate_dataframe df = .ok →
      Scaling.validate_stds (stdRowOf df) = .error e →
      s.standardize df =
        ({ mean := some (meanRowOf df), std := some (stdRowOf df) },
          .err e)) := by
  constructor
  · intro s df e h
    simp [ZScoreScaler.standardize, h]
  · intro s df e h1 h2
    simp [ZScoreScaler.standardize, h1, h2]

/-- A non-numeric table rejected by dataframe validation. -/
def dfC9bad : DataFrame ℝ := [⟨"i", .int32, [.int 1]⟩]

/-- A constant float column (sample std 0) rejected by the denominator
check. -/
noncomputable def colC9 : Column ℝ :=
  ⟨"c", .float64, [.f64 (.fin 2), .f64 (.fin 2)]⟩

/-- The one-column table built from `colC9`. -/
noncomputable def dfC9 : DataFrame ℝ := [colC9]

lemma sampleVar_colC9 : sampleVar (colFloatVals colC9) = 0 := by
  have hvals : colFloatVals colC9 = [2, 2] := rfl
  rw [hvals]
  norm_num [sampleVar, listMean]

lemma stdRow_dfC9 : stdRowOf dfC9 = [⟨"c", .float64, [.f64 (.fin 0)]⟩] := by
  have hstd0 : sampleStd (colFloatVals colC9) = 0 := by
    rw [sampleStd, sampleVar_colC9, Real.sqrt_zero]
  have hcell : stdCell colC9 = .f64 (.fin 0) := by
    unfold stdCell
    rw [if_neg (by decide), hstd0]
    rfl
  simp [stdRowOf, dfC9, hcell]
  exact ⟨rfl, rfl⟩

lemma validate_stds_dfC9 : Scaling.validate_stds (stdRowOf dfC9) =
    .error (.zeroStandardDeviationError "c") := by
  rw [stdRow_dfC9]
  simp [Scaling.validate_stds, Scaling.validate_non_zero_std,
    Scaling.zero_std_cols, Column.get0, joinComma]
  rfl

/-- Witness for C9: a validation failure leaves the state untouched, while a
zero-std failure leaves the failing input's statistics behind. -/
theorem C9_standardize_not_atomic_witness :
    Validation.validate_dataframe dfC9bad = .err (.nonNumericError "i") ∧
    ZScoreScaler.new.standardize dfC9bad =
      (ZScoreScaler.new, .err (.validationError (.nonNumericError "i"))) ∧
    Validation.validate_dataframe dfC9 = .ok ∧
    ZScoreScaler.new.standardize dfC9 =
      ({ mean := some (meanRowOf dfC9), std := some (stdRowOf dfC9) },
        .err (.zeroStandardDeviationError "c")) :=
  ⟨rfl,
    C9_standardize_not_atomic.1 ZScoreScaler.new dfC9bad _ rfl,
    rfl,
    C9_standardize_not_atomic.2 ZScoreScaler.new dfC9 _ rfl validate_stds_dfC9⟩

/-! ## Claim C5 -/

/-- Claim C5: on an otherwise-valid table containing a column whose sample
standard deviation is exactly zero, `standardize` aborts with the
zero-standard-deviation error naming that column (it is in the offender list
whose comma-join the error carries) and returns no output table. -/
theorem C5_zero_std_aborts (s : ZScoreScaler) (df : DataFrame ℝ)
    (col : Column ℝ) (hval : Validation.validate_dataframe df = .ok)
    (hmem : col ∈ df) (hlen : 2 ≤ (colFloatVals col).length)
    (hvar : sampleVar (colFloatVals col) = 0) :
    col.name ∈ Scaling.zero_std_cols (stdRowOf df) ∧
    (s.standardize df).snd =
      .err (.zeroStandardDeviationError
        (joinComma (Scaling.zero_std_cols (stdRowOf df)))) ∧
    ∀ out, (s.standardize df).snd ≠ .ok out := by
  have hstd0 : sampleStd (colFloatVals col) = 0 := by
    rw [sampleStd, hvar, Real.sqrt_zero]
  have hcell : stdCell col = wrapFloat col.dtype 0 := by
    unfold stdCell
    rw [if_neg (by omega), hstd0]
  have hmem2 : col.name ∈ Scaling.zero_std_cols (stdRowOf df) := by
    apply List.mem_filterMap.mpr
    refine ⟨⟨col.name, col.dtype, [stdCell col]⟩, ?_, ?_⟩
    · exact List.mem_map_of_mem _ hmem
    · rw [hcell]
      cases col.dtype <;> simp [wrapFloat, Column.get0]
  have hne : Scaling.zero_std_cols (stdRowOf df) ≠ [] :=
    List.ne_nil_of_mem hmem2
  have hnz : Scaling.validate_non_zero_std (stdRowOf df) =
      .error (.zeroStandardDeviationError
        (joinComma (Scaling.zero_std_cols (stdRowOf df)))) := by
    unfold Scaling.validate_non_zero_std
    rw [if_neg (by simp [List.isEmpty_iff, hne])]
  have hstds : Scaling.validate_stds (stdRowOf df) =
      .error (.zeroStandardDeviationError
        (joinComma (Scaling.zero_std_cols (stdRowOf df)))) := by
    unfold Scaling.validate_stds
    rw [hnz]
  refine ⟨hmem2, ?_, ?_⟩
  · simp [ZScoreScaler.standardize, hval, hstds]
  · intro out
    simp [ZScoreScaler.standardize, hval, hstds]

/-- A valid non-constant column. -/
noncomputable def colC5a : Column ℝ :=
  ⟨"a", .float64, [.f64 (.fin 1), .f64 (.fin 2), .f64 (.fin 3)]⟩

/-- A column holding a single repeated value (sample std 0). -/
noncomputable def colC5b : Column ℝ :=
  ⟨"b", .float64, [.f64 (.fin 2), .f64 (.fin 2), .f64 (.fin 2)]⟩

/-- The witness table for C5. -/
noncomputable def dfC5 : DataFrame ℝ := [colC5a, colC5b]

/-- Witness for C5 at the concrete table with a constant column. -/
theorem C5_zero_std_aborts_witness :
    Validation.validate_dataframe dfC5 = .ok ∧
    sampleVar (colFloatVals colC5b) = 0 ∧
    colC5b.name ∈ Scaling.zero_std_cols (stdRowOf dfC5) ∧
    (ZScoreScaler.new.standardize dfC5).snd =
      .err (.zeroStandardDeviationError
        (joinComma (Scaling.zero_std_cols (stdRowOf dfC5)))) := by
  have hvar : sampleVar (colFloatVals colC5b) = 0 := by
    have hvals : colFloatVals colC5b = [2, 2, 2] := rfl
    rw [hvals]
    norm_num [sampleVar, listMean]
  have hmem : colC5b ∈ dfC5 :=
    List.mem_cons_of_mem _ (List.mem_cons_self _ _)
  have h := C5_zero_std_aborts ZScoreScaler.new dfC5 colC5b rfl hmem
    (by decide) hvar
  exact ⟨rfl, hvar, h.1, h.2.1⟩

/-! ## Claim C3 -/

/-- Claim C3: while the scaler is uninitialized (`mean` and `std` both
`None`, as after construction or `reset`), `transform` fails with the
`UninitializedScaler` error for every input; after a successful
`standardize` call, `transform` on the same table succeeds. -/
theorem C3_transform_lifecycle :
    (∀ (s : ZScoreScaler) (df : DataFrame ℝ), s.mean = none → s.std = none →
      ∃ msg, s.transform df = .err (.uninitializedScaler msg)) ∧
    (∀ (s s2 : ZScoreScaler) (df out : DataFrame ℝ),
      s.standardize df = (s2, .ok out) →
      ∃ res, s2.transform df = .ok res) := by
  constructor
  · intro s df h1 h2
    exact ⟨"scaler has not been fitted; call standardize first",
      by simp [ZScoreScaler.transform, h1, h2]⟩
  · intro s s2 df out h
    cases hv : Validation.validate_dataframe df with
    | panic => simp [ZScoreScaler.standardize, hv] at h
    | err e => simp [ZScoreScaler.standardize, hv] at h
    | ok =>
      cases hs : Scaling.validate_stds (stdRowOf df) with
      | error e => simp [ZScoreScaler.standardize, hv, hs] at h
      | ok u =>
        simp [ZScoreScaler.standardize, hv, hs] at h
        obtain ⟨hs2, hout⟩ := h
        subst hs2
        exact ⟨applyStats (meanRowOf df) (stdRowOf df) df,
          by simp [ZScoreScaler.transform, hv]⟩

/-- The witness table for C3: a fit on it succeeds (sample std 1). -/
noncomputable def dfC3 : DataFrame ℝ :=
  [⟨"x", .float64, [.f64 (.fin 1), .f64 (.fin 2), .f64 (.fin 3)]⟩]

lemma standardize_dfC3 : ZScoreScaler.new.standardize dfC3 =
    ({ mean := some (meanRowOf dfC3), std := some (stdRowOf dfC3) },
      .ok (standardizedDf dfC3)) := by
  have hvals : colFloatVals ⟨"x", .float64,
      [.f64 (.fin 1), .f64 (.fin 2), .f64 (.fin 3)]⟩ = [1, 2, 3] := rfl
  have hvar : sampleVar ([1, 2, 3] : List ℝ) = 1 := by
    norm_num [sampleVar, listMean]
  have hstd1 : sampleStd ([1, 2, 3] : List ℝ) = 1 := by
    rw [sampleStd, hvar, Real.sqrt_one]
  have hrow : stdRowOf dfC3 = [⟨"x", .float64, [.f64 (.fin 1)]⟩] := by
    simp [stdRowOf, dfC3, stdCell, hvals, hstd1, wrapFloat]
  have hstds : Scaling.validate_stds (stdRowOf dfC3) = .ok () := by
    rw [hrow]
    norm_num [Scaling.validate_stds, Scaling.validate_non_zero_std,
      Scaling.validate_near_zero_std, Scaling.zero_std_cols,
      Scaling.near_zero_std_cols, Column.get0, NEAR_ZERO_THRESHOLD, abs_lt]
  simp [ZScoreScaler.standardize, hstds]
  rfl

/-- Witness for C3: the fresh scaler's `transform` is uninitialized, and the
fitted scaler's `transform` succeeds. -/
theorem C3_transform_lifecycle_witness :
    (∃ msg, ZScoreScaler.new.transform dfC3 =
      .err (.uninitializedScaler msg)) ∧
    (∃ res, (ZScoreScaler.mk (some (meanRowOf dfC3))
      (some (stdRowOf dfC3))).transform dfC3 = .ok res) :=
  ⟨C3_transform_lifecycle.1 ZScoreScaler.new dfC3 rfl rfl,
    C3_transform_lifecycle.2 ZScoreScaler.new _ dfC3 _ standardize_dfC3⟩

/-! ## Claim C6 -/

/-- The first input column of the concrete spec scenario:
`feature1 = [1, 2, 3, 4, 5]`. -/
noncomputable def colF1 : Column ℝ :=
  ⟨"feature1", .float64, [.f64 (.fin 1), .f64 (.fin 2), .f64 (.fin 3),
    .f64 (.fin 4), .f64 (.fin 5)]⟩

/-- The second input column of the concrete spec scenario:
`feature2 = [10, 20, 30, 40, 50]`. -/
noncomputable def colF2 : Column ℝ :=
  ⟨"feature2", .float64, [.f64 (.fin 10), .f64 (.fin 20), .f64 (.fin 30),
    .f64 (.fin 40), .f64 (.fin 50)]⟩

/-- The concrete two-column input table of the spec scenario. -/
noncomputable def dfC6 : DataFrame ℝ := [colF1, colF2]

lemma listMean_colF1 : listMean (colFloatVals colF1) = 3 := by
  rw [show colFloatVals colF1 = [1, 2, 3, 4, 5] from rfl]
  norm_num [listMean]

lemma listMean_colF2 : listMean (colFloatVals colF2) = 30 := by
  rw [show colFloatVals colF2 = [10, 20, 30, 40, 50] from rfl]
  norm_num [listMean]

lemma sampleVar_colF1 : sampleVar (colFloatVals colF1) = 5 / 2 := by
  rw [show colFloatVals colF1 = [1, 2, 3, 4, 5] from rfl]
  norm_num [sampleVar, listMean]

lemma sampleVar_colF2 : sampleVar (colFloatVals colF2) = 250 := by
  rw [show colFloatVals colF2 = [10, 20, 30, 40, 50] from rfl]
  norm_num [sampleVar, listMean]

lemma sampleStd_colF1 : sampleStd (colFloatVals colF1) = Real.sqrt (5 / 2) := by
  rw [sampleStd, sampleVar_colF1]

lemma sampleStd_colF2 : sampleStd (colFloatVals colF2) = Real.sqrt 250 := by
  rw [sampleStd, sampleVar_colF2]

lemma sqrt25_lb : (1.5811388 : ℝ) < Real.sqrt (5 / 2) :=
  (Real.lt_sqrt (by norm_num)).mpr (by norm_num)

lemma sqrt25_ub : Real.sqrt (5 / 2) < 1.5811389 :=
  (Real.sqrt_lt' (by norm_num)).mpr (by norm_num)

lemma sqrt250_lb : (15.811388 : ℝ) < Real.sqrt 250 :=
  (Real.lt_sqrt (by norm_num)).mpr (by norm_num)

lemma sqrt250_ub : Real.sqrt 250 < 15.811389 :=
  (Real.sqrt_lt' (by norm_num)).mpr (by norm_num)

lemma sqrt25_pos : (0 : ℝ) < Real.sqrt (5 / 2) := by
  have := sqrt25_lb
  linarith

lemma meanCell_colF1 : meanCell colF1 = .f64 (.fin 3) := by
  unfold meanCell
  rw [if_neg (by decide), listMean_colF1]
  rfl

lemma meanCell_colF2 : meanCell colF2 = .f64 (.fin 30) := by
  unfold meanCell
  rw [if_neg (by decide), listMean_colF2]
  rfl

lemma stdCell_colF1 : stdCell colF1 = .f64 (.fin (Real.sqrt (5 / 2))) := by
  unfold stdCell
  rw [if_neg (by decide), sampleStd_colF1]
  rfl

lemma stdCell_colF2 : stdCell colF2 = .f64 (.fin (Real.sqrt 250)) := by
  unfold stdCell
  rw [if_neg (by decide), sampleStd_colF2]
  rfl

lemma meanRow_dfC6 : meanRowOf dfC6 =
    [⟨"feature1", .float64, [.f64 (.fin 3)]⟩,
     ⟨"feature2", .float64, [.f64 (.fin 30)]⟩] := by
  simp [meanRowOf, dfC6, meanCell_colF1, meanCell_colF2]
  exact ⟨⟨rfl, rfl⟩, rfl, rfl⟩

lemma stdRow_dfC6 : stdRowOf dfC6 =
    [⟨"feature1", .float64, [.f64 (.fin (Real.sqrt (5 / 2)))]⟩,
     ⟨"feature2", .float64, [.f64 (.fin (Real.sqrt 250))]⟩] := by
  simp [stdRowOf, dfC6, stdCell_colF1, stdCell_colF2]
  exact ⟨⟨rfl, rfl⟩, rfl, rfl⟩

lemma sqrt250_pos : (0 : ℝ) < Real.sqrt 250 := by
  have := sqrt250_lb
  linarith

lemma validate_stds_dfC6 : Scaling.validate_stds (stdRowOf dfC6) = .ok () := by
  have h1 : Real.sqrt (5 / 2) ≠ 0 := ne_of_gt sqrt25_pos
  have h2 : Real.sqrt 250 ≠ 0 := ne_of_gt sqrt250_pos
  have h3 : ¬ |Real.sqrt (5 / 2)| < NEAR_ZERO_THRESHOLD ℝ := by
    rw [not_lt, abs_of_pos sqrt25_pos, NEAR_ZERO_THRESHOLD]
    have := sqrt25_lb
    linarith
  have h4 : ¬ |Real.sqrt 250| < NEAR_ZERO_THRESHOLD ℝ := by
    rw [not_lt, abs_of_pos sqrt250_pos, NEAR_ZERO_THRESHOLD]
    have := sqrt250_lb
    linarith
  rw [stdRow_dfC6]
  simp only [Scaling.validate_stds, Scaling.validate_non_zero_std,
    Scaling.validate_near_zero_std, Scaling.zero_std_cols,
    Scaling.near_zero_std_cols, Column.get0, List.filterMap_cons,
    List.filterMap_nil, List.head?_cons, ne_eq, h1, h2, h3, h4,
    if_false, List.isEmpty_nil, if_true]

lemma standardize_dfC6 : ZScoreScaler.new.standardize dfC6 =
    ({ mean := some (meanRowOf dfC6), std := some (stdRowOf dfC6) },
      .ok (standardizedDf dfC6)) := by
  simp [ZScoreScaler.standardize, validate_stds_dfC6]
  rfl

lemma standardized_vals_colF1 : colFloatVals (standardizeCol colF1) =
    [(1 - 3) / Real.sqrt (5 / 2), (2 - 3) / Real.sqrt (5 / 2),
     (3 - 3) / Real.sqrt (5 / 2), (4 - 3) / Real.sqrt (5 / 2),
     (5 - 3) / Real.sqrt (5 / 2)] := by
  have hraw : colFloatVals (standardizeCol colF1) =
      [(1 - listMean (colFloatVals colF1)) / sampleStd (colFloatVals colF1),
       (2 - listMean (colFloatVals colF1)) / sampleStd (colFloatVals colF1),
       (3 - listMean (colFloatVals colF1)) / sampleStd (colFloatVals colF1),
       (4 - listMean (colFloatVals colF1)) / sampleStd (colFloatVals colF1),
       (5 - listMean (colFloatVals colF1)) / sampleStd (colFloatVals colF1)]
    := rfl
  rw [hraw, listMean_colF1, sampleStd_colF1]

/-- Claim C6: on the concrete table `feature1 = [1..5]`,
`feature2 = [10..50]`, `standardize` stores the exact mean row `(3, 30)`,
stores the sample std row `(√2.5, √250)` whose entries are within `1e-6` of
`1.5811388` and `15.811388`, succeeds, and produces a standardized
`feature1` column within `1e-6` of
`[-1.2649111, -0.6324555, 0, 0.6324555, 1.2649111]`. -/
theorem C6_concrete_standardization :
    (ZScoreScaler.new.standardize dfC6).fst.mean =
      some [⟨"feature1", .float64, [.f64 (.fin 3)]⟩,
            ⟨"feature2", .float64, [.f64 (.fin 30)]⟩] ∧
    (ZScoreScaler.new.standardize dfC6).fst.std =
      some [⟨"feature1", .float64, [.f64 (.fin (Real.sqrt (5 / 2)))]⟩,
            ⟨"feature2", .float64, [.f64 (.fin (Real.sqrt 250))]⟩] ∧
    |Real.sqrt (5 / 2) - 1.5811388| < 1e-6 ∧
    |Real.sqrt 250 - 15.811388| < 1e-6 ∧
    (ZScoreScaler.new.standardize dfC6).snd = .ok (standardizedDf dfC6) ∧
    standardizedDf dfC6 = [standardizeCol colF1, standardizeCol colF2] ∧
    List.Forall₂ (fun x y => |x - y| < 1e-6)
      (colFloatVals (standardizeCol colF1))
      [-1.2649111, -0.6324555, 0, 0.6324555, 1.2649111] := by
  have hspos : (0 : ℝ) < Real.sqrt (5 / 2) := sqrt25_pos
  have hlb := sqrt25_lb
  have hub := sqrt25_ub
  have hu2 : (2 : ℝ) / Real.sqrt (5 / 2) < 1.2649121 := by
    have ha : (2 : ℝ) / Real.sqrt (5 / 2) < 2 / 1.5811388 :=
      div_lt_div_of_pos_left (by norm_num) (by norm_num) hlb
    have hb : (2 : ℝ) / 1.5811388 < 1.2649121 := by norm_num
    linarith
  have hl2 : (1.2649101 : ℝ) < 2 / Real.sqrt (5 / 2) := by
    have ha : (2 : ℝ) / 1.5811389 < 2 / Real.sqrt (5 / 2) :=
      div_lt_div_of_pos_left (by norm_num) hspos hub
    have hb : (1.2649101 : ℝ) < 2 / 1.5811389 := by norm_num
    linarith
  have hu1 : (1 : ℝ) / Real.sqrt (5 / 2) < 0.6324565 := by
    have ha : (1 : ℝ) / Real.sqrt (5 / 2) < 1 / 1.5811388 :=
      div_lt_div_of_pos_left (by norm_num) (by norm_num) hlb
    have hb : (1 : ℝ) / 1.5811388 < 0.6324565 := by norm_num
    linarith
  have hl1 : (0.6324545 : ℝ) < 1 / Real.sqrt (5 / 2) := by
    have ha : (1 : ℝ) / 1.5811389 < 1 / Real.sqrt (5 / 2) :=
      div_lt_div_of_pos_left (by norm_num) hspos hub
    have hb : (0.6324545 : ℝ) < 1 / 1.5811389 := by norm_num
    linarith
  refine ⟨?_, ?_, ?_, ?_, ?_, rfl, ?_⟩
  · rw [standardize_dfC6, meanRow_dfC6]
  · rw [standardize_dfC6, stdRow_dfC6]
  · rw [abs_lt]
    constructor <;> linarith
  · have hlb2 := sqrt250_lb
    have hub2 := sqrt250_ub
    rw [abs_lt]
    constructor <;> linarith
  · rw [standardize_dfC6]
  · rw [standardized_vals_colF1]
    refine List.Forall₂.cons ?_ (List.Forall₂.cons ?_ (List.Forall₂.cons ?_
      (List.Forall₂.cons ?_ (List.Forall₂.cons ?_ List.Forall₂.nil))))
    · rw [show ((1 : ℝ) - 3) / Real.sqrt (5 / 2) =
        -(2 / Real.sqrt (5 / 2)) from by ring]
      rw [abs_lt]
      constructor <;> linarith
    · rw [show ((2 : ℝ) - 3) / Real.sqrt (5 / 2) =
        -(1 / Real.sqrt (5 / 2)) from by ring]
      rw [abs_lt]
      constructor <;> linarith
    · rw [show ((3 : ℝ) - 3) / Real.sqrt (5 / 2) = 0 from by ring]
      norm_num
    · rw [show ((4 : ℝ) - 3) / Real.sqrt (5 / 2) =
        1 / Real.sqrt (5 / 2) from by ring]
      rw [abs_lt]
      constructor <;> linarith
    · rw [show ((5 : ℝ) - 3) / Real.sqrt (5 / 2) =
        2 / Real.sqrt (5 / 2) from by ring]
      rw [abs_lt]
      constructor <;> linarith
